import Mathlib

/-!
Verification development for the event check-in platform
(check-in service in the checkin route, print dispatch agent in
src/scripts/print-logic.js), embedded shallowly: the relational store is a
record of lists, machine effects (blob download, physical print, store
failures) are explicit oracles, and the store's atomic constraint-checked
insert and conditional updates are modelled as pure functions.
-/

/-- Status enum of a print job row (`status` column of `print_jobs`). -/
inductive JobStatus
  | pending
  | ready_to_print
  | printing
  | printed
  | failed
deriving DecidableEq, Repr

/-- A row of the `tickets` relation, with the columns the check-in route
selects (`id, ticket_code`). -/
structure Ticket where
  id : Nat
  ticket_code : String
deriving DecidableEq, Repr

/-- A row of the `checkin_log` relation (the CheckinRecord of the design). -/
structure CheckinLog where
  id : Nat
  ticket_id : Nat
  ticket_code : String
  success : Bool
  message : String
  terminal_id : String
  actor_id : Option String
  created_at : Nat
deriving DecidableEq, Repr

/-- A row of the `print_jobs` relation.  `attempt_count` is nullable in the
store (the agent reads it with `?? 0`), hence `Option Nat`. -/
structure PrintJob where
  id : Nat
  ticket_id : Nat
  file_path : Option String
  status : JobStatus
  terminal_id : Option String
  attempt_count : Option Nat
  last_error : Option String
  created_at : Nat
  updated_at : Nat
deriving DecidableEq, Repr

/-- The ledger store: the three relations plus a logical clock (source of
`created_at` / `updated_at` timestamps) and a fresh-id counter. -/
structure Store where
  tickets : List Ticket
  checkin_log : List CheckinLog
  print_jobs : List PrintJob
  now : Nat
  nextId : Nat
deriving DecidableEq, Repr

/-- JavaScript truthiness of the optional `terminalId` string, as tested by
`if (terminalId)` in the route: `undefined` and the empty string are falsy. -/
def strTruthy : Option String → Bool
  | none => false
  | some s => s != ""

/-- Lookup of the ticket by code (`.eq("ticket_code", ticketCode).maybeSingle()`). -/
def findTicket (s : Store) (code : String) : Option Ticket :=
  s.tickets.find? (fun t => t.ticket_code == code)

/-- Row predicate of the duplicate-fetch query: successful check-in rows of
the given ticket (`.eq("ticket_id", ...).eq("success", true)`). -/
def isSuccessFor (tid : Nat) (r : CheckinLog) : Bool :=
  r.ticket_id == tid && r.success

/-- Whether the store already holds a successful check-in row for the
ticket: the condition under which the partial unique index on
`checkin_log (ticket_id) where success` rejects a further successful insert. -/
def hasSuccess (s : Store) (tid : Nat) : Bool :=
  s.checkin_log.any (isSuccessFor tid)

/-- Descending `created_at` order used by the duplicate-fetch query
(`.order("created_at", { ascending: false })`). -/
def createdDesc (a b : CheckinLog) : Prop := b.created_at ≤ a.created_at

instance : DecidableRel createdDesc := fun a b => Nat.decLe b.created_at a.created_at

instance : IsTotal CheckinLog createdDesc := ⟨fun a b => Nat.le_total b.created_at a.created_at⟩

instance : IsTrans CheckinLog createdDesc := ⟨fun _ _ _ h h' => Nat.le_trans h' h⟩

/-- The most recent successful check-in row for a ticket: the duplicate
branch's query ordered by `created_at` descending with `limit(1).maybeSingle()`. -/
def mostRecentSuccess (s : Store) (tid : Nat) : Option CheckinLog :=
  (List.insertionSort createdDesc (s.checkin_log.filter (isSuccessFor tid))).head?

/-- Atomic constraint-checked insert of a successful check-in row: the store
checks the partial unique index and either appends the row or rejects with
SQLSTATE 23505.  This models the single atomic insert statement; the route
issues it with no prior application-level read. -/
def insertSuccessLog (s : Store) (row : CheckinLog) : Except Nat Store :=
  if hasSuccess s row.ticket_id then Except.error 23505
  else Except.ok
    { s with
      checkin_log := s.checkin_log ++ [row]
      now := s.now + 1
      nextId := s.nextId + 1 }

/-- Response bodies of the checkin route, one constructor per
`NextResponse.json` call site of the route. -/
inductive CheckinBody
  | badRequest
  | notFound (message : String)
  | serverError
  | already (message : String) (ticket : Ticket) (log : Option CheckinLog)
  | checkedIn (message : String) (ticket : Ticket) (log : CheckinLog)
deriving DecidableEq, Repr

/-- An HTTP response of the checkin route: status code and JSON body. -/
structure CheckinResponse where
  status : Nat
  body : CheckinBody
deriving DecidableEq, Repr

/-- The JSON keys of each body shape, read off the object literals at the
corresponding `NextResponse.json` call sites. -/
def bodyKeys : CheckinBody → List String
  | .badRequest => ["ok", "error"]
  | .notFound _ => ["ok", "message"]
  | .serverError => ["ok", "error"]
  | .already _ _ _ => ["ok", "message", "ticket", "checkin_log"]
  | .checkedIn _ _ _ => ["ok", "message", "ticket", "checkin_log"]

/-- The `ok` field of each body shape. -/
def bodyOk : CheckinBody → Bool
  | .checkedIn _ _ _ => true
  | _ => false

/-- Store-side failure oracle for the best-effort print-job update (the
`printErr` branch of the route). -/
structure DbEnv where
  printUpdateError : Bool
deriving DecidableEq, Repr

/-- The conditional update the route applies to `print_jobs`: rows matching
`ticket_id = ... and status = 'pending'` get status `ready_to_print`, the
assigned terminal, and a fresh `updated_at`; all other rows are untouched. -/
def printJobUpdate (tid : Nat) (terminal : String) (clock : Nat) (j : PrintJob) : PrintJob :=
  if j.ticket_id == tid && j.status == JobStatus.pending then
    { j with
      status := JobStatus.ready_to_print
      terminal_id := some terminal
      updated_at := clock }
  else j

/-- The check-in row the route inserts: `success = true`, message
"Checked in", the terminal defaulting to the sentinel "web" via
`terminalId ?? "web"`, timestamps from the store. -/
def freshRow (s : Store) (t : Ticket) (ticketCode : String)
    (terminalId : Option String) (actorId : Option String) : CheckinLog :=
  { id := s.nextId
    ticket_id := t.id
    ticket_code := ticketCode
    success := true
    message := "Checked in"
    terminal_id := terminalId.getD "web"
    actor_id := actorId
    created_at := s.now }

/-- Step 5 of the route: only when a truthy `terminalId` was provided
(`if (terminalId)`), conditionally update the ticket's pending print job;
a store error on this update is swallowed (the check-in is not failed). -/
def armPrint (env : DbEnv) (terminalId : Option String) (ticketId : Nat)
    (s1 : Store) : Store :=
  if strTruthy terminalId then
    if env.printUpdateError then s1
    else
      { s1 with
        print_jobs :=
          s1.print_jobs.map (printJobUpdate ticketId (terminalId.getD "web") s1.now)
        now := s1.now + 1 }
  else s1

/-- The POST handler of the checkin route, after JSON parsing: validate the
body (zod `ticketCode: min(1)`), look the ticket up, attempt the
constraint-guarded insert, on 23505 answer 409 with the most recent
successful row, otherwise best-effort arm the print job and answer 200. -/
def checkinPost (env : DbEnv) (s : Store) (ticketCode : String)
    (terminalId : Option String) (actorId : Option String) :
    CheckinResponse × Store :=
  if ticketCode.length < 1 then
    (⟨400, CheckinBody.badRequest⟩, s)
  else
    match findTicket s ticketCode with
    | none => (⟨404, CheckinBody.notFound "Ticket not found"⟩, s)
    | some ticket =>
      match insertSuccessLog s (freshRow s ticket ticketCode terminalId actorId) with
      | Except.error _ =>
        (⟨409, CheckinBody.already "Ticket already checked in" ticket
            (mostRecentSuccess s ticket.id)⟩, s)
      | Except.ok s1 =>
        (⟨200, CheckinBody.checkedIn "Checked in" ticket
            (freshRow s ticket ticketCode terminalId actorId)⟩,
          armPrint env terminalId ticket.id s1)

/-- One parsed check-in request body. -/
structure CheckinRequest where
  ticketCode : String
  terminalId : Option String
  actorId : Option String
deriving DecidableEq, Repr

/-- Serialized execution of a batch of check-in requests.  Each request's
only mutating step is the single atomic insert (plus the best-effort job
update after it), so any interleaving of N concurrent requests is
equivalent to running them in their insert order. -/
def runRequests (env : DbEnv) (s : Store) : List CheckinRequest → List CheckinResponse × Store
  | [] => ([], s)
  | r :: rest =>
    let p := checkinPost env s r.ticketCode r.terminalId r.actorId
    let q := runRequests env p.2 rest
    (p.1 :: q.1, q.2)

/-- Agent configuration (env vars of the agent process): the terminal this
agent instance serves. -/
structure AgentConfig where
  terminal_id : String
deriving DecidableEq, Repr

/-- The slice of the store the agent touches, with its logical clock. -/
structure AgentStore where
  print_jobs : List PrintJob
  now : Nat
deriving DecidableEq, Repr

/-- Effect oracle of the agent: outcome of a blob download by storage path,
and outcome of the physical print action by job id (the temp file printed
is named after the job id).  An `Except.error` is the thrown error's text. -/
structure AgentEnv where
  download : String → Except String Unit
  printAction : Nat → Except String Unit

/-- Observable agent events: start of the per-job routine, a physical print
invocation, and a poll-channel store query. -/
inductive AgentEvent
  | procStart (id : Nat)
  | printInvoke (id : Nat)
  | queryRun
deriving DecidableEq, Repr

/-- Truncation applied to the recorded error text
(`String(err).slice(0, 1000)`). -/
def truncateErr (e : String) : String := ⟨e.data.take 1000⟩

/-- The agent's `updateJob`: one store update setting the given fields on
the rows with this id, always stamping `updated_at` (the field function is
applied with `updated_at` set at the call sites below). -/
def updateJobFields (s : AgentStore) (id : Nat) (f : PrintJob → PrintJob) : AgentStore :=
  { s with
    print_jobs := s.print_jobs.map (fun j => if j.id == id then f j else j)
    now := s.now + 1 }

/-- The single combined update at the start of processing: status
`printing` and the incremented attempt counter in one `updateJob` call. -/
def markPrinting (s : AgentStore) (job : PrintJob) : AgentStore :=
  updateJobFields s job.id fun j =>
    { j with
      status := JobStatus.printing
      attempt_count := some (job.attempt_count.getD 0 + 1)
      updated_at := s.now }

/-- The success update: status `printed`. -/
def markPrinted (s : AgentStore) (job : PrintJob) : AgentStore :=
  updateJobFields s job.id fun j =>
    { j with status := JobStatus.printed, updated_at := s.now }

/-- The catch-branch update: status `failed`, the truncated error text, and
the attempt counter recomputed from the in-memory job row. -/
def markFailed (s : AgentStore) (job : PrintJob) (e : String) : AgentStore :=
  updateJobFields s job.id fun j =>
    { j with
      status := JobStatus.failed
      last_error := some (truncateErr e)
      attempt_count := some (job.attempt_count.getD 0 + 1)
      updated_at := s.now }

/-- The try-block of `processJob`: validate `file_path`, mark printing with
the incremented attempt counter, download the blob, invoke the physical
print, mark printed.  An `Except.error` carries the thrown error text, the
store at the throw point, and the events emitted so far. -/
def processJobInner (env : AgentEnv) (s : AgentStore) (job : PrintJob) :
    Except (String × AgentStore × List AgentEvent) (AgentStore × List AgentEvent) :=
  match job.file_path with
  | none =>
    Except.error ("No file_path in print job", s, [AgentEvent.procStart job.id])
  | some fp =>
    let s1 := markPrinting s job
    match env.download fp with
    | Except.error e => Except.error (e, s1, [AgentEvent.procStart job.id])
    | Except.ok _ =>
      match env.printAction job.id with
      | Except.error e =>
        Except.error (e, s1, [AgentEvent.procStart job.id, AgentEvent.printInvoke job.id])
      | Except.ok _ =>
        Except.ok (markPrinted s1 job, [AgentEvent.procStart job.id, AgentEvent.printInvoke job.id])

/-- `processJob` proper: the try-block with its catch, which records the
failure on the job and returns normally — no exception escapes the job
boundary. -/
def processJob (env : AgentEnv) (s : AgentStore) (job : PrintJob) :
    AgentStore × List AgentEvent :=
  match processJobInner env s job with
  | Except.ok r => r
  | Except.error (e, s1, ev) => (markFailed s1 job e, ev)

/-- Sequential processing of a discovered batch (`for (const job of jobs)`),
continuing past every per-job outcome. -/
def processJobs (env : AgentEnv) (s : AgentStore) : List PrintJob → AgentStore × List AgentEvent
  | [] => (s, [])
  | j :: rest =>
    let p := processJob env s j
    let q := processJobs env p.1 rest
    (q.1, p.2 ++ q.2)

/-- The push-channel qualification check (`shouldProcessJob`): status became
`ready_to_print` and the row is assigned to this agent's terminal. -/
def shouldProcessJob (cfg : AgentConfig) (job : PrintJob) : Bool :=
  job.status == JobStatus.ready_to_print && job.terminal_id == some cfg.terminal_id

/-- The push-channel handler (`handleJobChange`): act on the updated row if
it qualifies, otherwise do nothing.  The code calls `processJob` directly,
with no in-memory currently-processing set in between. -/
def handleJobChange (env : AgentEnv) (cfg : AgentConfig) (s : AgentStore)
    (updatedRow : PrintJob) : AgentStore × List AgentEvent :=
  if shouldProcessJob cfg updatedRow then processJob env s updatedRow
  else (s, [])

/-- Ascending `created_at` order used by the catch-up and poll queries
(`.order("created_at", { ascending: true })`). -/
def createdLE (a b : PrintJob) : Prop := a.created_at ≤ b.created_at

instance : DecidableRel createdLE := fun a b => Nat.decLe a.created_at b.created_at

instance : IsTotal PrintJob createdLE := ⟨fun a b => Nat.le_total a.created_at b.created_at⟩

instance : IsTrans PrintJob createdLE := ⟨fun _ _ _ => Nat.le_trans⟩

/-- Row predicate shared by the catch-up and poll queries: `ready_to_print`
rows assigned to this terminal. -/
def readyForTerminal (cfg : AgentConfig) (j : PrintJob) : Bool :=
  j.status == JobStatus.ready_to_print && j.terminal_id == some cfg.terminal_id

/-- The poll-channel query: `ready_to_print` rows of this terminal, ordered
by ascending creation time, `limit(5)`. -/
def pollQuery (cfg : AgentConfig) (s : AgentStore) : List PrintJob :=
  (List.insertionSort createdLE (s.print_jobs.filter (readyForTerminal cfg))).take 5

/-- The startup catch-up query in `main`: same filter and order, unbounded. -/
def startupQuery (cfg : AgentConfig) (s : AgentStore) : List PrintJob :=
  List.insertionSort createdLE (s.print_jobs.filter (readyForTerminal cfg))

/-- Both channels observing the same row in the same tick: the poller's
batch is fetched from the store, the push handler then runs on the updated
row, and the poller afterwards works through its already-fetched batch. -/
def sameTickRace (env : AgentEnv) (cfg : AgentConfig) (s : AgentStore)
    (updatedRow : PrintJob) : AgentStore × List AgentEvent :=
  let batch := pollQuery cfg s
  let p := handleJobChange env cfg s updatedRow
  let q := processJobs env p.1 batch
  (q.1, p.2 ++ q.2)

/-- Agent process state: the module-level `polling` flag plus the store. -/
structure AgentSys where
  polling : Bool
  store : AgentStore
deriving Repr

/-- One iteration of the poll loop body: run the query (observable as a
`queryRun` event) and process the batch. -/
def pollIter (env : AgentEnv) (cfg : AgentConfig) (s : AgentStore) :
    AgentStore × List AgentEvent :=
  let batch := pollQuery cfg s
  let p := processJobs env s batch
  (p.1, AgentEvent.queryRun :: p.2)

/-- The fuelled `while (polling)` loop: each pass re-checks the flag, runs
one iteration, and sleeps (the sleep is not modelled). -/
def pollLoop (env : AgentEnv) (cfg : AgentConfig) :
    Nat → AgentSys → AgentSys × List AgentEvent
  | 0, st => (st, [])
  | fuel + 1, st =>
    if st.polling then
      let p := pollIter env cfg st.store
      let q := pollLoop env cfg fuel { st with store := p.1 }
      (q.1, p.2 ++ q.2)
    else (st, [])

/-- `startPolling`: return at once if the loop is already running, else set
the flag and enter the loop. -/
def startPolling (env : AgentEnv) (cfg : AgentConfig) (fuel : Nat)
    (st : AgentSys) : AgentSys × List AgentEvent :=
  if st.polling then (st, [])
  else pollLoop env cfg fuel { st with polling := true }

/-- Fetch a job row by id (first row with that id). -/
def getJob (s : AgentStore) (id : Nat) : Option PrintJob :=
  s.print_jobs.find? (fun j => j.id == id)

/-- Manual or automatic re-arming of a failed job back to `ready_to_print`;
performed outside the agent (the design's retry hand-off), modelled as the
plain status write it is. -/
def rearmJob (s : AgentStore) (id : Nat) : AgentStore :=
  { s with
    print_jobs :=
      s.print_jobs.map fun j =>
        if j.id == id then { j with status := JobStatus.ready_to_print } else j }

/-- The job ids whose per-job routine was entered, in order. -/
def startEvents (evs : List AgentEvent) : List Nat :=
  evs.filterMap fun e =>
    match e with
    | AgentEvent.procStart i => some i
    | _ => none

/-- Fixture: a store-effect environment with the best-effort print update
succeeding. -/
def env0 : DbEnv := ⟨false⟩

/-- Fixture: a store-effect environment where the print-job update is
rejected by the store. -/
def envPrintFail : DbEnv := ⟨true⟩

/-- Fixture: a pending print job for ticket 1. -/
def pendingJob : PrintJob :=
  { id := 10, ticket_id := 1, file_path := some "tickets/ABC123.pdf"
    status := JobStatus.pending, terminal_id := none, attempt_count := none
    last_error := none, created_at := 0, updated_at := 0 }

/-- Fixture: ticket ABC123, not yet checked in, with one pending print job. -/
def store0 : Store :=
  { tickets := [⟨1, "ABC123"⟩], checkin_log := [], print_jobs := [pendingJob]
    now := 0, nextId := 100 }

theorem find?_eq_none_of_forall {α : Type} (p : α → Bool) (l : List α)
    (h : ∀ x ∈ l, p x = false) : l.find? p = none := by
  induction l with
  | nil => rfl
  | cons a l ih =>
    rw [List.find?_cons, h a (List.mem_cons_self a l)]
    exact ih fun x hx => h x (List.mem_cons_of_mem a hx)

/-- C6: a check-in request with a valid (non-empty) ticket code that is not
the code of any ticket in the store yields the 404 response with body
`{ ok:false, message:"Ticket not found" }` and leaves the store entirely
unchanged: no CheckinRecord is written and no other relation is mutated. -/
theorem unknown_ticket_not_found (env : DbEnv) (s : Store) (tc : String)
    (tid aid : Option String) (hv : 1 ≤ tc.length)
    (habsent : ∀ t ∈ s.tickets, t.ticket_code ≠ tc) :
    checkinPost env s tc tid aid = (⟨404, CheckinBody.notFound "Ticket not found"⟩, s) := by
  have hfind : findTicket s tc = none := by
    apply find?_eq_none_of_forall
    intro t ht
    simpa using habsent t ht
  unfold checkinPost
  rw [if_neg (by omega), hfind]

/-- C6 witness: the concrete store holds no ticket coded ZZZ, and the
request is answered 404 with the store unchanged. -/
theorem unknown_ticket_not_found_witness :
    checkinPost env0 store0 "ZZZ" (some "T1") none =
      (⟨404, CheckinBody.notFound "Ticket not found"⟩, store0) :=
  unknown_ticket_not_found env0 store0 "ZZZ" (some "T1") none (by decide)
    (by decide)

theorem insertSuccessLog_ok {s : Store} {row : CheckinLog} {s1 : Store}
    (h : insertSuccessLog s row = Except.ok s1) :
    hasSuccess s row.ticket_id = false ∧
    s1 = { s with
      checkin_log := s.checkin_log ++ [row]
      now := s.now + 1
      nextId := s.nextId + 1 } := by
  unfold insertSuccessLog at h
  split at h
  · cases h
  · rename_i hns
    cases h
    exact ⟨by simpa using hns, rfl⟩

theorem insertSuccessLog_of_dup {s : Store} {row : CheckinLog}
    (h : hasSuccess s row.ticket_id = true) :
    insertSuccessLog s row = Except.error 23505 := by
  unfold insertSuccessLog
  rw [if_pos h]

theorem insertSuccessLog_of_fresh {s : Store} {row : CheckinLog}
    (h : hasSuccess s row.ticket_id = false) :
    insertSuccessLog s row = Except.ok
      { s with
        checkin_log := s.checkin_log ++ [row]
        now := s.now + 1
        nextId := s.nextId + 1 } := by
  unfold insertSuccessLog
  rw [if_neg (by simp [h])]

theorem checkinPost_dup (env : DbEnv) (s : Store) (tc : String)
    (tid aid : Option String) (t : Ticket) (hv : 1 ≤ tc.length)
    (hfind : findTicket s tc = some t) (hdup : hasSuccess s t.id = true) :
    checkinPost env s tc tid aid =
      (⟨409, CheckinBody.already "Ticket already checked in" t
          (mostRecentSuccess s t.id)⟩, s) := by
  unfold checkinPost
  rw [if_neg (by omega), hfind]
  dsimp only
  rw [@insertSuccessLog_of_dup s (freshRow s t tc tid aid) hdup]

theorem checkinPost_fresh (env : DbEnv) (s : Store) (tc : String)
    (tid aid : Option String) (t : Ticket) (hv : 1 ≤ tc.length)
    (hfind : findTicket s tc = some t) (hns : hasSuccess s t.id = false) :
    checkinPost env s tc tid aid =
      (⟨200, CheckinBody.checkedIn "Checked in" t (freshRow s t tc tid aid)⟩,
        armPrint env tid t.id
          { s with
            checkin_log := s.checkin_log ++ [freshRow s t tc tid aid]
            now := s.now + 1
            nextId := s.nextId + 1 }) := by
  unfold checkinPost
  rw [if_neg (by omega), hfind]
  dsimp only
  rw [@insertSuccessLog_of_fresh s (freshRow s t tc tid aid) hns]

theorem printJobUpdate_of_not_pending (t2 : Nat) (term : String) (clock : Nat)
    (j : PrintJob) (hj : j.status ≠ JobStatus.pending) :
    printJobUpdate t2 term clock j = j := by
  simp [printJobUpdate, hj]

theorem checkinPost_print_jobs_shape (env : DbEnv) (s : Store) (tc : String)
    (tid aid : Option String) :
    (checkinPost env s tc tid aid).2.print_jobs = s.print_jobs ∨
    ∃ t2 term, (checkinPost env s tc tid aid).2.print_jobs =
      s.print_jobs.map (printJobUpdate t2 term (s.now + 1)) := by
  unfold checkinPost
  split
  · exact Or.inl rfl
  split
  · exact Or.inl rfl
  rename_i ticket hticket
  split
  · exact Or.inl rfl
  rename_i s1 heq
  obtain ⟨-, rfl⟩ := insertSuccessLog_ok heq
  unfold armPrint
  split
  · split
    · exact Or.inl rfl
    · exact Or.inr ⟨ticket.id, tid.getD "web", rfl⟩
  · exact Or.inl rfl

/-- C4: the route's PrintJob write is a conditional update filtered on the
current status being `pending`: the row function leaves any job whose
status is past `pending` unchanged, and consequently a repeated or
duplicate check-in call leaves every such print job row exactly as it was
(same position, same row) — it is never re-armed. -/
theorem checkin_never_rearms_past_pending (env : DbEnv) (s : Store)
    (tc : String) (tid aid : Option String) :
    (∀ t2 term clock j, j.status ≠ JobStatus.pending →
        printJobUpdate t2 term clock j = j) ∧
    ∀ (i : Nat) (j : PrintJob), s.print_jobs[i]? = some j →
      j.status ≠ JobStatus.pending →
      ((checkinPost env s tc tid aid).2).print_jobs[i]? = some j := by
  refine ⟨printJobUpdate_of_not_pending, ?_⟩
  intro i j hget hj
  rcases checkinPost_print_jobs_shape env s tc tid aid with h | ⟨t2, term, h⟩
  · rw [h]
    exact hget
  · rw [h, List.getElem?_map, hget]
    simp [printJobUpdate_of_not_pending t2 term (s.now + 1) j hj]

/-- Fixture: a print job already past `pending` (it is `ready_to_print`). -/
def readyJob10 : PrintJob :=
  { id := 10, ticket_id := 1, file_path := some "tickets/ABC123.pdf"
    status := JobStatus.ready_to_print, terminal_id := some "T1"
    attempt_count := none, last_error := none, created_at := 0, updated_at := 3 }

/-- Fixture: ticket ABC123 with its print job already `ready_to_print`. -/
def storeReady : Store :=
  { tickets := [⟨1, "ABC123"⟩], checkin_log := [], print_jobs := [readyJob10]
    now := 5, nextId := 200 }

/-- C4 witness: a duplicate check-in against the concrete store whose job
is already `ready_to_print` leaves that row untouched. -/
theorem checkin_never_rearms_past_pending_witness :
    ((checkinPost env0 storeReady "ABC123" (some "T2") none).2).print_jobs[0]? =
      some readyJob10 :=
  (checkin_never_rearms_past_pending env0 storeReady "ABC123" (some "T2") none).2
    0 readyJob10 (by decide) (by decide)

/-- C3 counterexample: a check-in that omits `terminalId` against the
concrete store whose ticket has a pending print job.  The insert succeeds
(status 200, record stamped with the sentinel "web" terminal), yet the
pending print job is left exactly as it was: the route's
`if (terminalId)` guard skips the transition entirely, contradicting the
claim that the transition is attempted for such requests. -/
theorem checkin_omitted_terminal_skips_print_cex :
    (checkinPost env0 store0 "ABC123" none none).1.status = 200 ∧
    (checkinPost env0 store0 "ABC123" none none).1.body =
      CheckinBody.checkedIn "Checked in" ⟨1, "ABC123"⟩
        { id := 100, ticket_id := 1, ticket_code := "ABC123", success := true
          message := "Checked in", terminal_id := "web", actor_id := none
          created_at := 0 } ∧
    (checkinPost env0 store0 "ABC123" none none).2.print_jobs = [pendingJob] ∧
    pendingJob.status = JobStatus.pending ∧
    pendingJob.ticket_id = 1 := by
  decide

/-- C3 (amended): when the insert of the CheckinRecord succeeds, the route
attempts the pending-to-ready_to_print transition only if a non-empty
`terminalId` was provided, stamping that terminal; a request omitting
`terminalId` still checks in (200, record stamped with the sentinel "web")
but skips the PrintJob transition entirely; and when the transition is
attempted, a store failure of it never rolls back or fails the check-in,
which still returns 200 CHECKED_IN. -/
theorem checkin_best_effort_print_transition (env : DbEnv) (s : Store)
    (tc : String) (aid : Option String) (t : Ticket) (hv : 1 ≤ tc.length)
    (hfind : findTicket s tc = some t) (hns : hasSuccess s t.id = false) :
    (∀ term : String, term ≠ "" →
      (checkinPost env s tc (some term) aid).1.status = 200 ∧
      (checkinPost env s tc (some term) aid).1.body =
        CheckinBody.checkedIn "Checked in" t (freshRow s t tc (some term) aid) ∧
      (freshRow s t tc (some term) aid).terminal_id = term ∧
      (env.printUpdateError = true →
        (checkinPost env s tc (some term) aid).2.print_jobs = s.print_jobs) ∧
      (env.printUpdateError = false →
        (checkinPost env s tc (some term) aid).2.print_jobs =
          s.print_jobs.map (printJobUpdate t.id term (s.now + 1)))) ∧
    ((checkinPost env s tc none aid).1.status = 200 ∧
      (checkinPost env s tc none aid).1.body =
        CheckinBody.checkedIn "Checked in" t (freshRow s t tc none aid) ∧
      (freshRow s t tc none aid).terminal_id = "web" ∧
      (checkinPost env s tc none aid).2.print_jobs = s.print_jobs) := by
  constructor
  · intro term hterm
    rw [checkinPost_fresh env s tc (some term) aid t hv hfind hns]
    have ht : strTruthy (some term) = true := by
      simp [strTruthy, hterm]
    refine ⟨rfl, rfl, rfl, ?_, ?_⟩
    · intro he
      simp [armPrint, ht, he]
    · intro he
      simp [armPrint, ht, he]
  · rw [checkinPost_fresh env s tc none aid t hv hfind hns]
    exact ⟨rfl, rfl, rfl, by simp [armPrint, strTruthy]⟩

/-- C3 witness: the concrete fresh check-in with terminal T1 returns 200
and maps the conditional update over the job table. -/
theorem checkin_best_effort_print_transition_witness :
    (checkinPost env0 store0 "ABC123" (some "T1") none).1.status = 200 ∧
    (checkinPost env0 store0 "ABC123" (some "T1") none).2.print_jobs =
      store0.print_jobs.map (printJobUpdate 1 "T1" 1) := by
  have h := checkin_best_effort_print_transition env0 store0 "ABC123" none
    ⟨1, "ABC123"⟩ (by decide) (by decide) (by decide)
  have h1 := h.1 "T1" (by decide)
  exact ⟨h1.1, h1.2.2.2.2 rfl⟩

/-- Fixture: the successful check-in row already stored for ticket 1. -/
def priorLog : CheckinLog :=
  { id := 50, ticket_id := 1, ticket_code := "ABC123", success := true
    message := "Checked in", terminal_id := "T1", actor_id := none
    created_at := 2 }

/-- Fixture: ticket ABC123 already checked in, its job already armed. -/
def storeChecked : Store :=
  { tickets := [⟨1, "ABC123"⟩], checkin_log := [priorLog]
    print_jobs := [readyJob10], now := 5, nextId := 300 }

theorem checkinPost_cases (env : DbEnv) (s : Store) (tc : String)
    (tid aid : Option String) :
    (checkinPost env s tc tid aid).1 = ⟨400, CheckinBody.badRequest⟩ ∨
    (checkinPost env s tc tid aid).1 = ⟨404, CheckinBody.notFound "Ticket not found"⟩ ∨
    (∃ t, findTicket s tc = some t ∧
      (checkinPost env s tc tid aid).1 =
        ⟨409, CheckinBody.already "Ticket already checked in" t
          (mostRecentSuccess s t.id)⟩) ∨
    (∃ t, findTicket s tc = some t ∧
      (checkinPost env s tc tid aid).1 =
        ⟨200, CheckinBody.checkedIn "Checked in" t (freshRow s t tc tid aid)⟩) := by
  unfold checkinPost
  split
  · exact Or.inl rfl
  split
  · exact Or.inr (Or.inl rfl)
  rename_i t ht
  split
  · exact Or.inr (Or.inr (Or.inl ⟨t, ht, rfl⟩))
  · exact Or.inr (Or.inr (Or.inr ⟨t, ht, rfl⟩))

/-- C7 counterexample: at the concrete already-checked-in store, the 409
response carries the prior record under the JSON key `checkin_log`; the
key `checkin_record` of the claim does not occur in the body. -/
theorem contract_key_is_checkin_log_cex :
    (checkinPost env0 storeChecked "ABC123" (some "T1") none).1.status = 409 ∧
    bodyKeys (checkinPost env0 storeChecked "ABC123" (some "T1") none).1.body =
      ["ok", "message", "ticket", "checkin_log"] ∧
    "checkin_record" ∉
      bodyKeys (checkinPost env0 storeChecked "ABC123" (some "T1") none).1.body := by
  decide

/-- C7 (amended): the check-in responses have the §6 shapes with the prior
or new record carried under the key `checkin_log` (not `checkin_record`):
every already-checked-in outcome is status 409 with body
`{ ok:false, message:"Ticket already checked in", ticket, checkin_log }`
carrying the most recent successful record, and every success outcome is
status 200 with body `{ ok:true, message:"Checked in", ticket, checkin_log }`. -/
theorem checkin_contract_shapes (env : DbEnv) (s : Store) (tc : String)
    (tid aid : Option String) :
    (∀ (msg : String) (t : Ticket) (lg : Option CheckinLog),
      (checkinPost env s tc tid aid).1.body = CheckinBody.already msg t lg →
      (checkinPost env s tc tid aid).1.status = 409 ∧
      bodyOk (CheckinBody.already msg t lg) = false ∧
      msg = "Ticket already checked in" ∧
      bodyKeys (CheckinBody.already msg t lg) =
        ["ok", "message", "ticket", "checkin_log"] ∧
      lg = mostRecentSuccess s t.id) ∧
    (∀ (msg : String) (t : Ticket) (lg : CheckinLog),
      (checkinPost env s tc tid aid).1.body = CheckinBody.checkedIn msg t lg →
      (checkinPost env s tc tid aid).1.status = 200 ∧
      bodyOk (CheckinBody.checkedIn msg t lg) = true ∧
      msg = "Checked in" ∧
      bodyKeys (CheckinBody.checkedIn msg t lg) =
        ["ok", "message", "ticket", "checkin_log"]) := by
  rcases checkinPost_cases env s tc tid aid with hre | hre | ⟨t, ht, hre⟩ | ⟨t, ht, hre⟩
  all_goals constructor
  all_goals intro msg t2 lg hbody
  all_goals rw [hre] at hbody ⊢
  all_goals simp only [CheckinResponse.body] at hbody
  · simp at hbody
  · simp at hbody
  · simp at hbody
  · simp at hbody
  · obtain ⟨hmsg, ht2, hlg⟩ := by simpa using hbody
    subst hmsg
    subst ht2
    subst hlg
    exact ⟨rfl, rfl, rfl, rfl, rfl⟩
  · simp at hbody
  · simp at hbody
  · obtain ⟨hmsg, ht2, hlg⟩ := by simpa using hbody
    subst hmsg
    subst ht2
    subst hlg
    exact ⟨rfl, rfl, rfl, rfl⟩

/-- C7 witness: the amended contract applied at the concrete duplicate
check-in, discharging the already-body hypothesis there. -/
theorem checkin_contract_shapes_witness :
    (checkinPost env0 storeChecked "ABC123" (some "T1") none).1.status = 409 ∧
    bodyKeys (CheckinBody.already "Ticket already checked in" ⟨1, "ABC123"⟩
        (some priorLog)) = ["ok", "message", "ticket", "checkin_log"] :=
  have h := (checkin_contract_shapes env0 storeChecked "ABC123" (some "T1") none).1
    "Ticket already checked in" ⟨1, "ABC123"⟩ (some priorLog) (by decide)
  ⟨h.1, h.2.2.2.1⟩

theorem mostRecentSuccess_isSuccess {s : Store} {tid : Nat} {r : CheckinLog}
    (h : mostRecentSuccess s tid = some r) : isSuccessFor tid r = true := by
  unfold mostRecentSuccess at h
  have hr : r ∈ List.insertionSort createdDesc (s.checkin_log.filter (isSuccessFor tid)) :=
    List.mem_of_mem_head? (by simp [h])
  rw [List.mem_insertionSort] at hr
  exact (List.mem_filter.mp hr).2

theorem mostRecentSuccess_of_hasSuccess {s : Store} {tid : Nat}
    (h : hasSuccess s tid = true) : ∃ r, mostRecentSuccess s tid = some r := by
  unfold hasSuccess at h
  rw [List.any_eq_true] at h
  obtain ⟨r, hr, hp⟩ := h
  have hs : r ∈ List.insertionSort createdDesc (s.checkin_log.filter (isSuccessFor tid)) :=
    (List.mem_insertionSort createdDesc).mpr (List.mem_filter.mpr ⟨hr, hp⟩)
  unfold mostRecentSuccess
  cases hsort : List.insertionSort createdDesc (s.checkin_log.filter (isSuccessFor tid)) with
  | nil =>
    rw [hsort] at hs
    cases hs
  | cons a l =>
    exact ⟨a, rfl⟩

theorem armPrint_tickets (env : DbEnv) (tid : Option String) (ticketId : Nat)
    (s1 : Store) : (armPrint env tid ticketId s1).tickets = s1.tickets := by
  unfold armPrint
  split
  · split
    · rfl
    · rfl
  · rfl

theorem armPrint_checkin_log (env : DbEnv) (tid : Option String) (ticketId : Nat)
    (s1 : Store) : (armPrint env tid ticketId s1).checkin_log = s1.checkin_log := by
  unfold armPrint
  split
  · split
    · rfl
    · rfl
  · rfl

theorem runRequests_cons (env : DbEnv) (s : Store) (r : CheckinRequest)
    (rest : List CheckinRequest) :
    runRequests env s (r :: rest) =
      ((checkinPost env s r.ticketCode r.terminalId r.actorId).1 ::
        (runRequests env (checkinPost env s r.ticketCode r.terminalId r.actorId).2 rest).1,
        (runRequests env (checkinPost env s r.ticketCode r.terminalId r.actorId).2 rest).2) :=
  rfl

theorem runRequests_dup (env : DbEnv) (s : Store) (tc : String) (t : Ticket)
    (hv : 1 ≤ tc.length) (hfind : findTicket s tc = some t)
    (hdup : hasSuccess s t.id = true) :
    ∀ reqs : List CheckinRequest, (∀ r ∈ reqs, r.ticketCode = tc) →
      runRequests env s reqs =
        (reqs.map fun _ =>
          (⟨409, CheckinBody.already "Ticket already checked in" t
            (mostRecentSuccess s t.id)⟩ : CheckinResponse), s) := by
  intro reqs hall
  induction reqs with
  | nil => rfl
  | cons r rest ih =>
    rw [runRequests_cons, hall r (List.mem_cons_self r rest),
      checkinPost_dup env s tc r.terminalId r.actorId t hv hfind hdup,
      ih fun x hx => hall x (List.mem_cons_of_mem r hx)]
    rfl

theorem isSuccessFor_eq {tid : Nat} {r : CheckinLog}
    (h : isSuccessFor tid r = true) : r.ticket_id = tid ∧ r.success = true := by
  unfold isSuccessFor at h
  simp only [Bool.and_eq_true, beq_iff_eq] at h
  exact h

/-- C1: with the ticket present and not yet checked in, a serialized batch
of N ≥ 1 check-in requests for its code — serialization standing for any
interleaving of N concurrent requests, since each request's only guarded
mutation is the store's single atomic constraint-checked insert, issued
with no prior read-then-write existence check — produces exactly one 200
CHECKED_IN response and N−1 409 ALREADY_CHECKED_IN responses, every 409
carrying a prior successful CheckinRecord of that ticket (the most recent
one at the time of the request), and the final store holds exactly one
successful CheckinRecord for the ticket. -/
theorem checkin_at_most_once (env : DbEnv) (s : Store) (tc : String)
    (t : Ticket) (reqs : List CheckinRequest) (hv : 1 ≤ tc.length)
    (hfind : findTicket s tc = some t) (hns : hasSuccess s t.id = false)
    (hall : ∀ r ∈ reqs, r.ticketCode = tc) (hne : 0 < reqs.length) :
    (runRequests env s reqs).1.length = reqs.length ∧
    ((runRequests env s reqs).1.countP fun resp => resp.status == 200) = 1 ∧
    ((runRequests env s reqs).1.countP fun resp => resp.status == 409) =
      reqs.length - 1 ∧
    ((runRequests env s reqs).2.checkin_log.countP (isSuccessFor t.id)) = 1 ∧
    (∀ resp ∈ (runRequests env s reqs).1, resp.status = 409 →
      ∃ prior, resp.body =
          CheckinBody.already "Ticket already checked in" t (some prior) ∧
        prior.success = true ∧ prior.ticket_id = t.id) ∧
    ∀ (env2 : DbEnv) (s2 : Store) (tc2 : String) (tid2 aid2 : Option String)
        (t2 : Ticket), 1 ≤ tc2.length → findTicket s2 tc2 = some t2 →
      hasSuccess s2 t2.id = true →
      checkinPost env2 s2 tc2 tid2 aid2 =
        (⟨409, CheckinBody.already "Ticket already checked in" t2
          (mostRecentSuccess s2 t2.id)⟩, s2) := by
  cases reqs with
  | nil => exact absurd hne (lt_irrefl 0)
  | cons r rest =>
    have hr : r.ticketCode = tc := hall r (List.mem_cons_self r rest)
    have hfresh := checkinPost_fresh env s tc r.terminalId r.actorId t hv hfind hns
    have hlog2 :
        (armPrint env r.terminalId t.id
          { s with
            checkin_log := s.checkin_log ++ [freshRow s t tc r.terminalId r.actorId]
            now := s.now + 1
            nextId := s.nextId + 1 }).checkin_log =
          s.checkin_log ++ [freshRow s t tc r.terminalId r.actorId] := by
      rw [armPrint_checkin_log]
    have hfind2 :
        findTicket
          (armPrint env r.terminalId t.id
            { s with
              checkin_log := s.checkin_log ++ [freshRow s t tc r.terminalId r.actorId]
              now := s.now + 1
              nextId := s.nextId + 1 }) tc = some t := by
      unfold findTicket
      rw [armPrint_tickets]
      exact hfind
    have hrowsucc : isSuccessFor t.id (freshRow s t tc r.terminalId r.actorId) = true := by
      simp [isSuccessFor, freshRow]
    have hdup2 :
        hasSuccess
          (armPrint env r.terminalId t.id
            { s with
              checkin_log := s.checkin_log ++ [freshRow s t tc r.terminalId r.actorId]
              now := s.now + 1
              nextId := s.nextId + 1 }) t.id = true := by
      unfold hasSuccess
      rw [hlog2, List.any_append]
      simp [hrowsucc]
    have hcount2 :
        (armPrint env r.terminalId t.id
          { s with
            checkin_log := s.checkin_log ++ [freshRow s t tc r.terminalId r.actorId]
            now := s.now + 1
            nextId := s.nextId + 1 }).checkin_log.countP (isSuccessFor t.id) = 1 := by
      rw [hlog2, List.countP_append]
      have h0 : s.checkin_log.countP (isSuccessFor t.id) = 0 := by
        rw [List.countP_eq_zero]
        intro a ha hpa
        have hcontra : hasSuccess s t.id = true := by
          unfold hasSuccess
          rw [List.any_eq_true]
          exact ⟨a, ha, hpa⟩
        rw [hcontra] at hns
        cases hns
      rw [h0]
      simp [hrowsucc]
    have hrest := runRequests_dup env
      (armPrint env r.terminalId t.id
        { s with
          checkin_log := s.checkin_log ++ [freshRow s t tc r.terminalId r.actorId]
          now := s.now + 1
          nextId := s.nextId + 1 }) tc t hv hfind2 hdup2 rest
      (fun x hx => hall x (List.mem_cons_of_mem r hx))
    rw [runRequests_cons, hr, hfresh]
    dsimp only
    rw [hrest]
    dsimp only
    obtain ⟨prior, hprior⟩ := mostRecentSuccess_of_hasSuccess hdup2
    obtain ⟨hprtid, hprsucc⟩ := isSuccessFor_eq (mostRecentSuccess_isSuccess hprior)
    refine ⟨?_, ?_, ?_, hcount2, ?_,
      fun env2 s2 tc2 tid2 aid2 t2 hv2 hf2 hd2 =>
        checkinPost_dup env2 s2 tc2 tid2 aid2 t2 hv2 hf2 hd2⟩
    · simp
    · rw [List.countP_cons_of_pos _ _ (by rfl)]
      rw [List.countP_eq_zero.mpr ?_]
      · intro x hx
        obtain ⟨y, hy, rfl⟩ := List.mem_map.mp hx
        simp
    · rw [List.countP_cons_of_neg _ _ (by simp)]
      rw [List.countP_eq_length.mpr ?_]
      · simp
      · intro x hx
        obtain ⟨y, hy, rfl⟩ := List.mem_map.mp hx
        simp
    · intro resp hresp h409
      rcases List.mem_cons.mp hresp with hre | hre
      · rw [hre] at h409
        cases h409
      · obtain ⟨y, hy, rfl⟩ := List.mem_map.mp hre
        refine ⟨prior, ?_, hprsucc, hprtid⟩
        dsimp only
        rw [hprior]

/-- Fixture: three concurrent check-in requests for ticket ABC123. -/
def reqs3 : List CheckinRequest :=
  [⟨"ABC123", some "T1", none⟩, ⟨"ABC123", some "T1", none⟩,
    ⟨"ABC123", none, some "staff"⟩]

/-- C1 witness: the at-most-once theorem applied to the concrete batch of
three requests against the fresh store. -/
theorem checkin_at_most_once_witness :
    ((runRequests env0 store0 reqs3).1.countP fun resp => resp.status == 200) = 1 ∧
    ((runRequests env0 store0 reqs3).1.countP fun resp => resp.status == 409) = 2 ∧
    ((runRequests env0 store0 reqs3).2.checkin_log.countP (isSuccessFor 1)) = 1 :=
  have h := checkin_at_most_once env0 store0 "ABC123" ⟨1, "ABC123"⟩ reqs3
    (by decide) (by decide) (by decide) (by decide) (by decide)
  ⟨h.2.1, h.2.2.1, h.2.2.2.1⟩

/-- Fixture: the agent configured for terminal T1. -/
def cfgT1 : AgentConfig := ⟨"T1"⟩

/-- Fixture: downloads and the physical print action both succeed. -/
def envOk : AgentEnv := ⟨fun _ => Except.ok (), fun _ => Except.ok ()⟩

/-- Fixture: every blob download fails with error text "boom". -/
def envDownFail : AgentEnv := ⟨fun _ => Except.error "boom", fun _ => Except.ok ()⟩

/-- Fixture: a `ready_to_print` job assigned to terminal T1, no attempts yet. -/
def jobReady : PrintJob :=
  { id := 1, ticket_id := 1, file_path := some "tickets/ABC123.pdf"
    status := JobStatus.ready_to_print, terminal_id := some "T1"
    attempt_count := none, last_error := none, created_at := 0, updated_at := 0 }

/-- Fixture: the agent-side store holding just that ready job. -/
def agentStore1 : AgentStore := ⟨[jobReady], 10⟩

theorem find?_map_update (l : List PrintJob) (id : Nat) (f : PrintJob → PrintJob)
    (hf : ∀ j, (f j).id = j.id) :
    ((l.map fun j => if j.id == id then f j else j).find? fun j => j.id == id) =
      (l.find? fun j => j.id == id).map f := by
  induction l with
  | nil => rfl
  | cons a l ih =>
    by_cases ha : (a.id == id) = true
    · have hfa : ((f a).id == id) = true := by rw [hf a]; exact ha
      rw [List.map_cons, if_pos ha,
        List.find?_cons_of_pos (p := fun j : PrintJob => j.id == id) _ hfa,
        List.find?_cons_of_pos (p := fun j : PrintJob => j.id == id) _ ha]
      rfl
    · rw [List.map_cons, if_neg ha,
        List.find?_cons_of_neg (p := fun j : PrintJob => j.id == id) _ ha,
        List.find?_cons_of_neg (p := fun j : PrintJob => j.id == id) _ ha, ih]

theorem getJob_updateJobFields (s : AgentStore) (id : Nat)
    (f : PrintJob → PrintJob) (hf : ∀ j, (f j).id = j.id) :
    getJob (updateJobFields s id f) id = (getJob s id).map f := by
  unfold getJob updateJobFields
  exact find?_map_update s.print_jobs id f hf

theorem startEvents_append (a b : List AgentEvent) :
    startEvents (a ++ b) = startEvents a ++ startEvents b :=
  List.filterMap_append a b _

theorem startEvents_processJob (env : AgentEnv) (s : AgentStore) (job : PrintJob) :
    startEvents (processJob env s job).2 = [job.id] := by
  cases hfp : job.file_path with
  | none => simp [processJob, processJobInner, hfp, startEvents]
  | some fp =>
    cases hdl : env.download fp with
    | error e => simp [processJob, processJobInner, hfp, hdl, startEvents]
    | ok u =>
      cases hpr : env.printAction job.id with
      | error e => simp [processJob, processJobInner, hfp, hdl, hpr, startEvents]
      | ok v => simp [processJob, processJobInner, hfp, hdl, hpr, startEvents]

theorem processJobs_cons (env : AgentEnv) (s : AgentStore) (j : PrintJob)
    (rest : List PrintJob) :
    processJobs env s (j :: rest) =
      ((processJobs env (processJob env s j).1 rest).1,
        (processJob env s j).2 ++ (processJobs env (processJob env s j).1 rest).2) :=
  rfl

theorem startEvents_processJobs (env : AgentEnv) (s : AgentStore)
    (jobs : List PrintJob) :
    startEvents (processJobs env s jobs).2 = jobs.map PrintJob.id := by
  induction jobs generalizing s with
  | nil => rfl
  | cons j rest ih =>
    rw [processJobs_cons]
    dsimp only
    rw [startEvents_append, startEvents_processJob, ih]
    rfl

/-- C10: starting the poll channel is idempotent: whenever the module-level
`polling` flag is already true, a further `startPolling` call — e.g. from a
repeated push-channel error event — returns immediately with the state
unchanged and no events at all (in particular no store query and no second
loop iteration), so at most one poll loop ever runs per agent instance. -/
theorem startPolling_idempotent (env : AgentEnv) (cfg : AgentConfig)
    (fuel : Nat) (st : AgentSys) (h : st.polling = true) :
    startPolling env cfg fuel st = (st, []) := by
  unfold startPolling
  rw [if_pos h]

/-- Fixture: agent state with the poll loop already running. -/
def sysPolling : AgentSys := ⟨true, agentStore1⟩

/-- C10 witness: a repeated `startPolling` against the concrete running
state is a no-op. -/
theorem startPolling_idempotent_witness :
    startPolling envOk cfgT1 7 sysPolling = (sysPolling, []) :=
  startPolling_idempotent envOk cfgT1 7 sysPolling rfl

theorem processJob_success (env : AgentEnv) (s : AgentStore) (job : PrintJob)
    (fp : String) (hfp : job.file_path = some fp)
    (hdl : env.download fp = Except.ok ())
    (hpr : env.printAction job.id = Except.ok ()) :
    processJob env s job =
      (markPrinted (markPrinting s job) job,
        [AgentEvent.procStart job.id, AgentEvent.printInvoke job.id]) := by
  unfold processJob processJobInner
  rw [hfp]
  dsimp only
  rw [hdl]
  dsimp only
  rw [hpr]

/-- C2 counterexample: a concrete `ready_to_print` job for this agent's
terminal observed in the same tick by the push channel and by the poll
channel's already-fetched batch.  With download and print succeeding, the
physical print action is invoked twice for the job, not exactly once: the
agent code keeps no in-memory currently-processing set and each channel
calls the per-job routine directly. -/
theorem agent_double_print_cex :
    shouldProcessJob cfgT1 jobReady = true ∧
    pollQuery cfgT1 agentStore1 = [jobReady] ∧
    ((sameTickRace envOk cfgT1 agentStore1 jobReady).2.countP
      fun e => e == AgentEvent.printInvoke jobReady.id) = 2 := by
  decide

/-- C2 (amended): the agent maintains no in-memory currently-processing
set; each channel that observes a qualifying job invokes the per-job
routine directly, so when the push handler and the poller's batch observe
the same `ready_to_print` job in the same tick (downloads and the print
device succeeding), the physical print action is invoked exactly twice for
that job — once per channel — rather than once. -/
theorem agent_dual_channel_double_print (env : AgentEnv) (cfg : AgentConfig)
    (s : AgentStore) (job : PrintJob) (fp : String)
    (hsp : shouldProcessJob cfg job = true)
    (hq : pollQuery cfg s = [job])
    (hfp : job.file_path = some fp)
    (hdl : env.download fp = Except.ok ())
    (hpr : env.printAction job.id = Except.ok ()) :
    ((sameTickRace env cfg s job).2.countP
      fun e => e == AgentEvent.printInvoke job.id) = 2 := by
  unfold sameTickRace handleJobChange
  rw [hq, if_pos hsp]
  rw [processJob_success env s job fp hfp hdl hpr]
  dsimp only
  rw [processJobs_cons]
  rw [processJob_success env _ job fp hfp hdl hpr]
  dsimp only
  simp [processJobs]

/-- C2 witness: the amended double-print theorem applied at the concrete
race fixture. -/
theorem agent_dual_channel_double_print_witness :
    ((sameTickRace envOk cfgT1 agentStore1 jobReady).2.countP
      fun e => e == AgentEvent.printInvoke jobReady.id) = 2 :=
  agent_dual_channel_double_print envOk cfgT1 agentStore1 jobReady
    "tickets/ABC123.pdf" (by decide) (by decide) rfl rfl rfl

theorem readyForTerminal_eq {cfg : AgentConfig} {j : PrintJob}
    (h : readyForTerminal cfg j = true) :
    j.status = JobStatus.ready_to_print ∧ j.terminal_id = some cfg.terminal_id := by
  unfold readyForTerminal at h
  simp only [Bool.and_eq_true, beq_iff_eq] at h
  exact h

/-- C8: the startup catch-up query and every poll query select only
`ready_to_print` jobs assigned to this agent's terminal, ordered by
ascending creation time, the poll query returning at most 5 jobs; and the
jobs so discovered are processed (their per-job routine entered) exactly
in that ascending creation-time order. -/
theorem agent_query_filter_order (cfg : AgentConfig) (s : AgentStore) :
    (pollQuery cfg s).length ≤ 5 ∧
    (∀ j ∈ pollQuery cfg s,
      j.status = JobStatus.ready_to_print ∧
        j.terminal_id = some cfg.terminal_id) ∧
    List.Sorted createdLE (pollQuery cfg s) ∧
    (∀ j ∈ startupQuery cfg s,
      j.status = JobStatus.ready_to_print ∧
        j.terminal_id = some cfg.terminal_id) ∧
    List.Sorted createdLE (startupQuery cfg s) ∧
    ∀ env : AgentEnv,
      startEvents (processJobs env s (pollQuery cfg s)).2 =
        (pollQuery cfg s).map PrintJob.id ∧
      startEvents (processJobs env s (startupQuery cfg s)).2 =
        (startupQuery cfg s).map PrintJob.id := by
  refine ⟨List.length_take_le 5 _, ?_, ?_, ?_, ?_, ?_⟩
  · intro j hj
    unfold pollQuery at hj
    have hj2 := List.take_subset 5 _ hj
    rw [List.mem_insertionSort] at hj2
    exact readyForTerminal_eq (List.mem_filter.mp hj2).2
  · exact List.Pairwise.sublist (List.take_sublist 5 _)
      (List.sorted_insertionSort createdLE _)
  · intro j hj
    unfold startupQuery at hj
    rw [List.mem_insertionSort] at hj
    exact readyForTerminal_eq (List.mem_filter.mp hj).2
  · exact List.sorted_insertionSort createdLE _
  · intro env
    exact ⟨startEvents_processJobs env s _, startEvents_processJobs env s _⟩

/-- Fixture: a later-created ready job for T1. -/
def jobLate : PrintJob :=
  { id := 2, ticket_id := 2, file_path := some "tickets/DEF456.pdf"
    status := JobStatus.ready_to_print, terminal_id := some "T1"
    attempt_count := none, last_error := none, created_at := 9, updated_at := 9 }

/-- Fixture: a ready job assigned to another terminal. -/
def jobOther : PrintJob :=
  { id := 3, ticket_id := 3, file_path := some "tickets/GHI789.pdf"
    status := JobStatus.ready_to_print, terminal_id := some "T2"
    attempt_count := none, last_error := none, created_at := 1, updated_at := 1 }

/-- Fixture: agent store with jobs out of creation order and one foreign job. -/
def agentStore2 : AgentStore := ⟨[jobLate, jobOther, jobReady], 20⟩

/-- C8 witness: against the concrete store the poll query is bounded,
keeps only this terminal's ready jobs, is sorted, and the batch is
processed in that order. -/
theorem agent_query_filter_order_witness :
    (pollQuery cfgT1 agentStore2).length ≤ 5 ∧
    (jobLate.status = JobStatus.ready_to_print ∧
      jobLate.terminal_id = some cfgT1.terminal_id) ∧
    List.Sorted createdLE (pollQuery cfgT1 agentStore2) ∧
    startEvents (processJobs envOk agentStore2 (pollQuery cfgT1 agentStore2)).2 =
      (pollQuery cfgT1 agentStore2).map PrintJob.id :=
  have h := agent_query_filter_order cfgT1 agentStore2
  ⟨h.1, h.2.1 jobLate (by decide), h.2.2.1, (h.2.2.2.2.2 envOk).1⟩

theorem processJob_of_inner_error (env : AgentEnv) (s : AgentStore)
    (job : PrintJob) (e : String) (s1 : AgentStore) (ev : List AgentEvent)
    (h : processJobInner env s job = Except.error (e, s1, ev)) :
    processJob env s job = (markFailed s1 job e, ev) := by
  unfold processJob
  rw [h]

theorem getJob_markFailed (s : AgentStore) (job : PrintJob) (e : String) :
    getJob (markFailed s job e) job.id =
      (getJob s job.id).map fun j =>
        { j with
          status := JobStatus.failed
          last_error := some (truncateErr e)
          attempt_count := some (job.attempt_count.getD 0 + 1)
          updated_at := s.now } := by
  unfold markFailed
  exact getJob_updateJobFields s job.id _ (fun j => rfl)

theorem getJob_markPrinting (s : AgentStore) (job : PrintJob) :
    getJob (markPrinting s job) job.id =
      (getJob s job.id).map fun j =>
        { j with
          status := JobStatus.printing
          attempt_count := some (job.attempt_count.getD 0 + 1)
          updated_at := s.now } := by
  unfold markPrinting
  exact getJob_updateJobFields s job.id _ (fun j => rfl)

theorem getJob_markPrinted (s : AgentStore) (job : PrintJob) :
    getJob (markPrinted s job) job.id =
      (getJob s job.id).map fun j =>
        { j with status := JobStatus.printed, updated_at := s.now } := by
  unfold markPrinted
  exact getJob_updateJobFields s job.id _ (fun j => rfl)

theorem processJobInner_error_store (env : AgentEnv) (s : AgentStore)
    (job : PrintJob) (e : String) (s1 : AgentStore) (ev : List AgentEvent)
    (h : processJobInner env s job = Except.error (e, s1, ev)) :
    s1 = s ∨ s1 = markPrinting s job := by
  unfold processJobInner at h
  cases hfp : job.file_path with
  | none =>
    rw [hfp] at h
    simp only [Except.error.injEq, Prod.mk.injEq] at h
    exact Or.inl h.2.1.symm
  | some fp =>
    rw [hfp] at h
    dsimp only at h
    cases hdl : env.download fp with
    | error e2 =>
      rw [hdl] at h
      simp only [Except.error.injEq, Prod.mk.injEq] at h
      exact Or.inr h.2.1.symm
    | ok u =>
      rw [hdl] at h
      dsimp only at h
      cases hpr : env.printAction job.id with
      | error e3 =>
        rw [hpr] at h
        simp only [Except.error.injEq, Prod.mk.injEq] at h
        exact Or.inr h.2.1.symm
      | ok v =>
        rw [hpr] at h
        simp at h

/-- C9: every per-job exception of the agent — missing file path, download
error, print-device error — is caught inside the per-job routine: the
routine returns normally with the failure recorded on that job (status
`failed`, the truncated error text, the incremented attempt counter), and
every job of a discovered batch enters processing regardless of earlier
jobs' failures, so the loop and the process continue. -/
theorem agent_errors_contained :
    (∀ (env : AgentEnv) (s : AgentStore) (job : PrintJob) (e : String)
        (s1 : AgentStore) (ev : List AgentEvent),
      processJobInner env s job = Except.error (e, s1, ev) →
      processJob env s job = (markFailed s1 job e, ev) ∧
      getJob (processJob env s job).1 job.id =
        (getJob s1 job.id).map fun j =>
          { j with
            status := JobStatus.failed
            last_error := some (truncateErr e)
            attempt_count := some (job.attempt_count.getD 0 + 1)
            updated_at := s1.now }) ∧
    ∀ (env : AgentEnv) (s : AgentStore) (jobs : List PrintJob),
      startEvents (processJobs env s jobs).2 = jobs.map PrintJob.id := by
  constructor
  · intro env s job e s1 ev h
    have hp := processJob_of_inner_error env s job e s1 ev h
    refine ⟨hp, ?_⟩
    rw [hp]
    exact getJob_markFailed s1 job e
  · intro env s jobs
    exact startEvents_processJobs env s jobs

/-- C9 witness: the caught download failure at the concrete fixture, and a
two-job batch in which the first job fails yet both enter processing. -/
theorem agent_errors_contained_witness :
    processJob envDownFail agentStore1 jobReady =
      (markFailed (markPrinting agentStore1 jobReady) jobReady "boom",
        [AgentEvent.procStart 1]) ∧
    startEvents (processJobs envDownFail agentStore2
        [jobLate, jobReady]).2 = [2, 1] :=
  ⟨(agent_errors_contained.1 envDownFail agentStore1 jobReady "boom"
      (markPrinting agentStore1 jobReady) [AgentEvent.procStart 1] rfl).1,
    agent_errors_contained.2 envDownFail agentStore2 [jobLate, jobReady]⟩

/-- C5: marking a job `printing` and incrementing its attempt counter is
one single combined store update (both fields change in the same row
write); a job with no recorded attempts that fails ends with
`attempt_count = 1`, status `failed` and the error text truncated to 1000
characters; and a job re-armed to `ready_to_print` that succeeds next ends
with its attempt counter incremented once more (so 2 after the second
attempt) and status `printed`. -/
theorem agent_retry_accounting :
    (∀ (s : AgentStore) (job : PrintJob),
      getJob (markPrinting s job) job.id =
        (getJob s job.id).map fun j =>
          { j with
            status := JobStatus.printing
            attempt_count := some (job.attempt_count.getD 0 + 1)
            updated_at := s.now }) ∧
    (∀ (env : AgentEnv) (s : AgentStore) (job : PrintJob) (e : String)
        (s1 : AgentStore) (ev : List AgentEvent) (j0 : PrintJob),
      processJobInner env s job = Except.error (e, s1, ev) →
      job.attempt_count.getD 0 = 0 →
      getJob s job.id = some j0 →
      ∃ j1, getJob (processJob env s job).1 job.id = some j1 ∧
        j1.status = JobStatus.failed ∧ j1.attempt_count = some 1 ∧
        j1.last_error = some (truncateErr e)) ∧
    ∀ (env : AgentEnv) (s : AgentStore) (job : PrintJob) (fp : String)
        (j0 : PrintJob),
      job.file_path = some fp → env.download fp = Except.ok () →
      env.printAction job.id = Except.ok () → getJob s job.id = some j0 →
      ∃ j2, getJob (processJob env s job).1 job.id = some j2 ∧
        j2.status = JobStatus.printed ∧
        j2.attempt_count = some (job.attempt_count.getD 0 + 1) := by
  refine ⟨getJob_markPrinting, ?_, ?_⟩
  · intro env s job e s1 ev j0 h h0 hg
    have hp := processJob_of_inner_error env s job e s1 ev h
    rw [hp]
    dsimp only
    rcases processJobInner_error_store env s job e s1 ev h with rfl | rfl
    · rw [getJob_markFailed, hg]
      exact ⟨_, rfl, rfl, by simp [h0], rfl⟩
    · rw [getJob_markFailed, getJob_markPrinting, hg]
      exact ⟨_, rfl, rfl, by simp [h0], rfl⟩
  · intro env s job fp j0 hfp hdl hpr hg
    rw [processJob_success env s job fp hfp hdl hpr]
    dsimp only
    rw [getJob_markPrinted, getJob_markPrinting, hg]
    exact ⟨_, rfl, rfl, rfl⟩

/-- Fixture: the job row as fetched back after the failed first attempt
and the external re-arm to `ready_to_print`. -/
def jobAfterFail : PrintJob :=
  { id := 1, ticket_id := 1, file_path := some "tickets/ABC123.pdf"
    status := JobStatus.ready_to_print, terminal_id := some "T1"
    attempt_count := some 1, last_error := some "boom"
    created_at := 0, updated_at := 11 }

/-- C5 witness: first attempt fails with `attempt_count = 1`, and after the
re-arm the successful second attempt ends `printed` with
`attempt_count = 2`. -/
theorem agent_retry_accounting_witness :
    (∃ j1, getJob (processJob envDownFail agentStore1 jobReady).1 1 = some j1 ∧
      j1.status = JobStatus.failed ∧ j1.attempt_count = some 1 ∧
      j1.last_error = some (truncateErr "boom")) ∧
    (∃ j2, getJob (processJob envOk
        (rearmJob (processJob envDownFail agentStore1 jobReady).1 1)
        jobAfterFail).1 1 = some j2 ∧
      j2.status = JobStatus.printed ∧ j2.attempt_count = some 2) := by
  constructor
  · exact agent_retry_accounting.2.1 envDownFail agentStore1 jobReady "boom"
      (markPrinting agentStore1 jobReady) [AgentEvent.procStart 1] jobReady
      rfl rfl rfl
  · exact agent_retry_accounting.2.2 envOk
      (rearmJob (processJob envDownFail agentStore1 jobReady).1 1) jobAfterFail
      "tickets/ABC123.pdf" jobAfterFail rfl rfl rfl (by decide)
